import Mathlib

/-!
Binding contract of `ShaderTypes.h`.

A shallow embedding of the header shared between the host renderer and the
Metal shaders: the two slot enumerations, the three uniform structs as field
declarations and as value types, the byte layout the C compiler gives the
structs, and reading/writing struct values through that layout in a byte
buffer.
-/

namespace ShaderTypes

/-! Enumerations. -/

/-- The constants of `enum TextureIndices`, in declaration order. -/
inductive TextureIndices
  | kTextureY
  | kTextureCbCr
  | kTextureDepth
  | kTextureConfidence
  deriving DecidableEq, Repr, Fintype

/-- The integer each `TextureIndices` constant is declared with. -/
def TextureIndices.value : TextureIndices → Nat
  | .kTextureY => 0
  | .kTextureCbCr => 1
  | .kTextureDepth => 2
  | .kTextureConfidence => 3

/-- The constants of `enum BufferIndices`, in declaration order. -/
inductive BufferIndices
  | kPointCloudUniforms
  | kParticleUniforms
  | kGridPoints
  deriving DecidableEq, Repr, Fintype

/-- The integer each `BufferIndices` constant is declared with. -/
def BufferIndices.value : BufferIndices → Nat
  | .kPointCloudUniforms => 0
  | .kParticleUniforms => 1
  | .kGridPoints => 2

/-! Field types and struct declarations. -/

/-- The C types the fields of the three structs are declared with. -/
inductive FieldType
  | float
  | int
  | simd_float2
  | simd_float3
  | matrix_float3x3
  | matrix_float4x4
  deriving DecidableEq, Repr

/-- Modelled from the spec: `sizeof` of each field type. The header only
includes `<simd/simd.h>`, which is not part of the repository; the sizes are
the ones of the simd library (a three-component vector is padded to 16 bytes,
a matrix is an array of its columns). -/
def FieldType.size : FieldType → Nat
  | .float => 4
  | .int => 4
  | .simd_float2 => 8
  | .simd_float3 => 16
  | .matrix_float3x3 => 48
  | .matrix_float4x4 => 64

/-- Modelled from the spec: the alignment of each field type, from the simd
library as for `FieldType.size`. -/
def FieldType.align : FieldType → Nat
  | .float => 4
  | .int => 4
  | .simd_float2 => 8
  | .simd_float3 => 16
  | .matrix_float3x3 => 16
  | .matrix_float4x4 => 16

/-- Modelled from the spec: byte offsets, inside a field of the given type, of
its 32-bit scalar components (column-major for the matrices, whose columns are
16 bytes apart). -/
def FieldType.compOffsets : FieldType → List Nat
  | .float => [0]
  | .int => [0]
  | .simd_float2 => [0, 4]
  | .simd_float3 => [0, 4, 8]
  | .matrix_float3x3 => [0, 4, 8, 16, 20, 24, 32, 36, 40]
  | .matrix_float4x4 => [0, 4, 8, 12, 16, 20, 24, 28, 32, 36, 40, 44, 48, 52, 56, 60]

/-- Scalar kind of a field type: floating point or integer. -/
inductive ScalarKind
  | floating
  | integer
  deriving DecidableEq, Repr

/-- Dimensionality of a field type. -/
inductive Shape
  | scalar
  | vector (n : Nat)
  | matrix (columns rows : Nat)
  deriving DecidableEq, Repr

/-- Scalar kind of the C type. -/
def FieldType.kind : FieldType → ScalarKind
  | .int => .integer
  | _ => .floating

/-- Dimensionality of the C type. -/
def FieldType.shape : FieldType → Shape
  | .float => .scalar
  | .int => .scalar
  | .simd_float2 => .vector 2
  | .simd_float3 => .vector 3
  | .matrix_float3x3 => .matrix 3 3
  | .matrix_float4x4 => .matrix 4 4

/-- One field declaration of a struct. -/
structure Field where
  name : String
  ty : FieldType
  deriving DecidableEq, Repr

/-- A struct declaration: its name and its fields in declaration order. -/
structure StructDecl where
  name : String
  fields : List Field
  deriving DecidableEq, Repr

/-- The declaration `struct RGBUniforms`. -/
def RGBUniformsDecl : StructDecl :=
  ⟨"RGBUniforms",
    [⟨"viewToCamera", .matrix_float3x3⟩,
     ⟨"viewRatio", .float⟩,
     ⟨"visibility", .float⟩]⟩

/-- The declaration `struct PointCloudUniforms`. -/
def PointCloudUniformsDecl : StructDecl :=
  ⟨"PointCloudUniforms",
    [⟨"viewProjectionMatrix", .matrix_float4x4⟩,
     ⟨"localToWorld", .matrix_float4x4⟩,
     ⟨"cameraIntrinsicsInversed", .matrix_float3x3⟩,
     ⟨"cameraResolution", .simd_float2⟩,
     ⟨"particleSize", .float⟩,
     ⟨"maxPoints", .int⟩,
     ⟨"pointCloudCurrentIndex", .int⟩,
     ⟨"confidenceThreshold", .int⟩]⟩

/-- The declaration `struct ParticleUniforms`. -/
def ParticleUniformsDecl : StructDecl :=
  ⟨"ParticleUniforms",
    [⟨"position", .simd_float3⟩,
     ⟨"color", .simd_float3⟩,
     ⟨"confidence", .float⟩]⟩

/-- The struct declarations of the header. -/
def structDecls : List StructDecl :=
  [RGBUniformsDecl, PointCloudUniformsDecl, ParticleUniformsDecl]

/-- The description of a field the data model gives: name, scalar kind and
dimensionality. -/
def Field.describe (f : Field) : String × ScalarKind × Shape :=
  (f.name, f.ty.kind, f.ty.shape)

/-- Field list of `RGBUniforms` as the data model of the specification lists
it. -/
def specRGBUniforms : List (String × ScalarKind × Shape) :=
  [("viewToCamera", .floating, .matrix 3 3),
   ("viewRatio", .floating, .scalar),
   ("visibility", .floating, .scalar)]

/-- Field list of `PointCloudUniforms` as the data model of the specification
lists it. -/
def specPointCloudUniforms : List (String × ScalarKind × Shape) :=
  [("viewProjectionMatrix", .floating, .matrix 4 4),
   ("localToWorld", .floating, .matrix 4 4),
   ("cameraIntrinsicsInversed", .floating, .matrix 3 3),
   ("cameraResolution", .floating, .vector 2),
   ("particleSize", .floating, .scalar),
   ("maxPoints", .integer, .scalar),
   ("pointCloudCurrentIndex", .integer, .scalar),
   ("confidenceThreshold", .integer, .scalar)]

/-- Field list of `ParticleUniforms` as the data model of the specification
lists it. -/
def specParticleUniforms : List (String × ScalarKind × Shape) :=
  [("position", .floating, .vector 3),
   ("color", .floating, .vector 3),
   ("confidence", .floating, .scalar)]

/-! Byte layout. None of the three structs is declared with a packing or
alignment attribute, so the compiler lays each out by the natural-alignment
rule, which the functions below compute from the declared fields. -/

/-- Modelled from the spec: natural alignment. Rounds `x` up to a multiple of
`a`, the way a compiler pads up to an alignment. -/
def alignUp (x a : Nat) : Nat := (x + a - 1) / a * a

/-- A field placed in the struct: its declaration and its byte offset. -/
structure Slot where
  name : String
  ty : FieldType
  offset : Nat
  deriving DecidableEq, Repr

/-- First byte after the field. -/
def Slot.stop (s : Slot) : Nat := s.offset + s.ty.size

/-- Modelled from the spec: the layout a compiler gives a struct declared
without packing attributes. Places the fields in declaration order from byte
`pos` on, each at the next offset that respects its alignment. -/
def layoutFrom (pos : Nat) : List Field → List Slot
  | [] => []
  | f :: fs =>
    ⟨f.name, f.ty, alignUp pos f.ty.align⟩ ::
      layoutFrom (alignUp pos f.ty.align + f.ty.size) fs

/-- The placed fields of a struct, the first one tried at byte 0. -/
def layout (d : StructDecl) : List Slot := layoutFrom 0 d.fields

/-- First byte after the last field (0 for a struct without fields). -/
def dataEnd (d : StructDecl) : Nat :=
  match (layout d).getLast? with
  | some s => s.stop
  | none => 0

/-- Modelled from the spec: the alignment of the struct, the largest alignment
among its fields. -/
def structAlign (d : StructDecl) : Nat :=
  (d.fields.map fun f => f.ty.align).foldl max 1

/-- Modelled from the spec: the value of `sizeof` for the struct, the end of
its last field rounded up to the struct's alignment. -/
def structSize (d : StructDecl) : Nat := alignUp (dataEnd d) (structAlign d)

/-- The placed field of the given name. -/
def slotOf (d : StructDecl) (name : String) : Option Slot :=
  (layout d).find? fun s => s.name == name

/-- The value of `offsetof` for the named field (0 when there is no such
field). -/
def offsetOf (d : StructDecl) (name : String) : Nat :=
  match slotOf d name with
  | some s => s.offset
  | none => 0

/-- First and last byte of the named field. -/
def byteRange (d : StructDecl) (name : String) : Option (Nat × Nat) :=
  (slotOf d name).map fun s => (s.offset, s.stop - 1)

/-- Byte at which element `i` of an array of the struct starts: array elements
are `sizeof` bytes apart. -/
def elemOffset (d : StructDecl) (i : Nat) : Nat := i * structSize d

/-- Byte at which the named field of element `i` of an array of the struct
starts. -/
def elemFieldOffset (d : StructDecl) (i : Nat) (name : String) : Nat :=
  elemOffset d i + offsetOf d name

/-! Struct values. -/

/-- Whether `w` is a 32-bit pattern (the bits of a `float`). -/
abbrev IsWord (w : Nat) : Prop := w < 4294967296

/-- Whether `i` is a value of the 32-bit signed type `int`. -/
abbrev IsInt32 (i : Int) : Prop := -2147483648 ≤ i ∧ i < 2147483648

/-- A `simd_float2` value; each component is the bit pattern of a `float`. -/
structure simd_float2 where
  x : Nat
  y : Nat
  deriving DecidableEq, Repr

/-- A `simd_float3` value. -/
structure simd_float3 where
  x : Nat
  y : Nat
  z : Nat
  deriving DecidableEq, Repr

/-- A `simd_float4` value, the column type of `matrix_float4x4`. -/
structure simd_float4 where
  x : Nat
  y : Nat
  z : Nat
  w : Nat
  deriving DecidableEq, Repr

/-- A `matrix_float3x3` value: three columns. -/
structure matrix_float3x3 where
  col0 : simd_float3
  col1 : simd_float3
  col2 : simd_float3
  deriving DecidableEq, Repr

/-- A `matrix_float4x4` value: four columns. -/
structure matrix_float4x4 where
  col0 : simd_float4
  col1 : simd_float4
  col2 : simd_float4
  col3 : simd_float4
  deriving DecidableEq, Repr

/-- A value of `struct RGBUniforms`. -/
structure RGBUniforms where
  viewToCamera : matrix_float3x3
  viewRatio : Nat
  visibility : Nat
  deriving DecidableEq, Repr

/-- A value of `struct PointCloudUniforms`. -/
structure PointCloudUniforms where
  viewProjectionMatrix : matrix_float4x4
  localToWorld : matrix_float4x4
  cameraIntrinsicsInversed : matrix_float3x3
  cameraResolution : simd_float2
  particleSize : Nat
  maxPoints : Int
  pointCloudCurrentIndex : Int
  confidenceThreshold : Int
  deriving DecidableEq, Repr

/-- A value of `struct ParticleUniforms`. -/
structure ParticleUniforms where
  position : simd_float3
  color : simd_float3
  confidence : Nat
  deriving DecidableEq, Repr

/-- Every component is a 32-bit pattern. -/
abbrev simd_float2.valid (v : simd_float2) : Prop := IsWord v.x ∧ IsWord v.y

/-- Every component is a 32-bit pattern. -/
abbrev simd_float3.valid (v : simd_float3) : Prop :=
  IsWord v.x ∧ IsWord v.y ∧ IsWord v.z

/-- Every component is a 32-bit pattern. -/
abbrev simd_float4.valid (v : simd_float4) : Prop :=
  IsWord v.x ∧ IsWord v.y ∧ IsWord v.z ∧ IsWord v.w

/-- Every component is a 32-bit pattern. -/
abbrev matrix_float3x3.valid (m : matrix_float3x3) : Prop :=
  m.col0.valid ∧ m.col1.valid ∧ m.col2.valid

/-- Every component is a 32-bit pattern. -/
abbrev matrix_float4x4.valid (m : matrix_float4x4) : Prop :=
  m.col0.valid ∧ m.col1.valid ∧ m.col2.valid ∧ m.col3.valid

/-- Every field holds a value of its C type. -/
abbrev RGBUniforms.valid (u : RGBUniforms) : Prop :=
  u.viewToCamera.valid ∧ IsWord u.viewRatio ∧ IsWord u.visibility

/-- Every field holds a value of its C type. -/
abbrev PointCloudUniforms.valid (u : PointCloudUniforms) : Prop :=
  u.viewProjectionMatrix.valid ∧ u.localToWorld.valid ∧
  u.cameraIntrinsicsInversed.valid ∧ u.cameraResolution.valid ∧
  IsWord u.particleSize ∧ IsInt32 u.maxPoints ∧
  IsInt32 u.pointCloudCurrentIndex ∧ IsInt32 u.confidenceThreshold

/-- Every field holds a value of its C type. -/
abbrev ParticleUniforms.valid (u : ParticleUniforms) : Prop :=
  u.position.valid ∧ u.color.valid ∧ IsWord u.confidence

/-- The 32-bit two's complement pattern of an `int`. -/
def wordOfInt (i : Int) : Nat := (i % 4294967296).toNat

/-- The `int` a 32-bit two's complement pattern stands for. -/
def intOfWord (w : Nat) : Int :=
  if w < 2147483648 then (w : Int) else (w : Int) - 4294967296

/-- The scalar components in memory order. -/
def simd_float2.words (v : simd_float2) : List Nat := [v.x, v.y]

/-- The scalar components in memory order. -/
def simd_float3.words (v : simd_float3) : List Nat := [v.x, v.y, v.z]

/-- The scalar components in memory order. -/
def simd_float4.words (v : simd_float4) : List Nat := [v.x, v.y, v.z, v.w]

/-- The scalar components in memory order, column after column. -/
def matrix_float3x3.words (m : matrix_float3x3) : List Nat :=
  m.col0.words ++ m.col1.words ++ m.col2.words

/-- The scalar components in memory order, column after column. -/
def matrix_float4x4.words (m : matrix_float4x4) : List Nat :=
  m.col0.words ++ m.col1.words ++ m.col2.words ++ m.col3.words

/-- The vector whose components in memory order are the given words. -/
def simd_float2.ofWords : List Nat → simd_float2
  | [x, y] => ⟨x, y⟩
  | _ => ⟨0, 0⟩

/-- The vector whose components in memory order are the given words. -/
def simd_float3.ofWords : List Nat → simd_float3
  | [x, y, z] => ⟨x, y, z⟩
  | _ => ⟨0, 0, 0⟩

/-- The matrix whose components in memory order are the given words. -/
def matrix_float3x3.ofWords : List Nat → matrix_float3x3
  | [a0, a1, a2, b0, b1, b2, c0, c1, c2] => ⟨⟨a0, a1, a2⟩, ⟨b0, b1, b2⟩, ⟨c0, c1, c2⟩⟩
  | _ => ⟨⟨0, 0, 0⟩, ⟨0, 0, 0⟩, ⟨0, 0, 0⟩⟩

/-- The matrix whose components in memory order are the given words. -/
def matrix_float4x4.ofWords : List Nat → matrix_float4x4
  | [a0, a1, a2, a3, b0, b1, b2, b3, c0, c1, c2, c3, d0, d1, d2, d3] =>
    ⟨⟨a0, a1, a2, a3⟩, ⟨b0, b1, b2, b3⟩, ⟨c0, c1, c2, c3⟩, ⟨d0, d1, d2, d3⟩⟩
  | _ => ⟨⟨0, 0, 0, 0⟩, ⟨0, 0, 0, 0⟩, ⟨0, 0, 0, 0⟩, ⟨0, 0, 0, 0⟩⟩

/-- The scalar whose only component is the given word. -/
def scalarOfWords : List Nat → Nat
  | [w] => w
  | _ => 0

/-! Byte buffers. The header declares no operations; storing a struct into a
buffer and loading it back is what the host renderer and the shaders do with
these declarations. -/

/-- Modelled from the spec: overwriting the bytes of a buffer. The bytes of
`buf` from index `off` on are replaced by `bs`; a byte that would fall behind
the end of the buffer is not stored. -/
def writeBytes : List Nat → Nat → List Nat → List Nat
  | buf, _, [] => buf
  | buf, off, b :: bs => writeBytes (buf.set off b) (off + 1) bs

/-- Modelled from the spec: the store of a 32-bit scalar into a buffer. The
pattern `w` goes to byte `off`, least significant byte first (the targets of
the app are little-endian). -/
def writeWord (buf : List Nat) (off w : Nat) : List Nat :=
  writeBytes buf off [w % 256, w / 256 % 256, w / 65536 % 256, w / 16777216 % 256]

/-- Modelled from the spec: the load of a 32-bit scalar from a buffer, least
significant byte first; a byte behind the end of the buffer reads as 0. -/
def readWord (buf : List Nat) (off : Nat) : Nat :=
  buf.getD off 0 + 256 * buf.getD (off + 1) 0 + 65536 * buf.getD (off + 2) 0 +
    16777216 * buf.getD (off + 3) 0

/-- Modelled from the spec: stores the words `ws` at the component offsets
`cs` of a field that starts at byte `off`. -/
def writeWordsAt (off : Nat) : List Nat → List Nat → List Nat → List Nat
  | buf, c :: cs, w :: ws => writeWordsAt off (writeWord buf (off + c) w) cs ws
  | buf, _, _ => buf

/-- Modelled from the spec: writing a field. Stores the scalar components
`ws` of a field of type `ty` that starts at byte `off`; padding bytes of the
field are left as they are. -/
def writeField (ty : FieldType) (buf : List Nat) (off : Nat) (ws : List Nat) : List Nat :=
  writeWordsAt off buf ty.compOffsets ws

/-- Modelled from the spec: reading a field back. Loads the scalar components
of a field of type `ty` that starts at byte `off`. -/
def readField (ty : FieldType) (buf : List Nat) (off : Nat) : List Nat :=
  ty.compOffsets.map fun c => readWord buf (off + c)

/-- The words `ws` are the scalar components of a value of type `ty`: one
32-bit pattern for each component. -/
def FieldType.Holds (ty : FieldType) (ws : List Nat) : Prop :=
  ws.length = ty.compOffsets.length ∧ ∀ w ∈ ws, IsWord w

/-- Modelled from the spec: writing a value to a buffer. Stores every field
at its offset in `struct RGBUniforms`. -/
def RGBUniforms.write (u : RGBUniforms) (buf : List Nat) : List Nat :=
  let buf := writeField .matrix_float3x3 buf (offsetOf RGBUniformsDecl "viewToCamera")
    u.viewToCamera.words
  let buf := writeField .float buf (offsetOf RGBUniformsDecl "viewRatio") [u.viewRatio]
  writeField .float buf (offsetOf RGBUniformsDecl "visibility") [u.visibility]

/-- Modelled from the spec: reading a value back from a buffer. Loads every
field from its offset in `struct RGBUniforms`. -/
def RGBUniforms.read (buf : List Nat) : RGBUniforms where
  viewToCamera := matrix_float3x3.ofWords
    (readField .matrix_float3x3 buf (offsetOf RGBUniformsDecl "viewToCamera"))
  viewRatio := scalarOfWords (readField .float buf (offsetOf RGBUniformsDecl "viewRatio"))
  visibility := scalarOfWords (readField .float buf (offsetOf RGBUniformsDecl "visibility"))

/-- Modelled from the spec: writing a value to a buffer. Stores every field
at its offset in `struct PointCloudUniforms`. -/
def PointCloudUniforms.write (u : PointCloudUniforms) (buf : List Nat) : List Nat :=
  let d := PointCloudUniformsDecl
  let buf := writeField .matrix_float4x4 buf (offsetOf d "viewProjectionMatrix")
    u.viewProjectionMatrix.words
  let buf := writeField .matrix_float4x4 buf (offsetOf d "localToWorld") u.localToWorld.words
  let buf := writeField .matrix_float3x3 buf (offsetOf d "cameraIntrinsicsInversed")
    u.cameraIntrinsicsInversed.words
  let buf := writeField .simd_float2 buf (offsetOf d "cameraResolution") u.cameraResolution.words
  let buf := writeField .float buf (offsetOf d "particleSize") [u.particleSize]
  let buf := writeField .int buf (offsetOf d "maxPoints") [wordOfInt u.maxPoints]
  let buf := writeField .int buf (offsetOf d "pointCloudCurrentIndex")
    [wordOfInt u.pointCloudCurrentIndex]
  writeField .int buf (offsetOf d "confidenceThreshold") [wordOfInt u.confidenceThreshold]

/-- Modelled from the spec: reading a value back from a buffer. Loads every
field from its offset in `struct PointCloudUniforms`. -/
def PointCloudUniforms.read (buf : List Nat) : PointCloudUniforms where
  viewProjectionMatrix := matrix_float4x4.ofWords
    (readField .matrix_float4x4 buf (offsetOf PointCloudUniformsDecl "viewProjectionMatrix"))
  localToWorld := matrix_float4x4.ofWords
    (readField .matrix_float4x4 buf (offsetOf PointCloudUniformsDecl "localToWorld"))
  cameraIntrinsicsInversed := matrix_float3x3.ofWords
    (readField .matrix_float3x3 buf (offsetOf PointCloudUniformsDecl "cameraIntrinsicsInversed"))
  cameraResolution := simd_float2.ofWords
    (readField .simd_float2 buf (offsetOf PointCloudUniformsDecl "cameraResolution"))
  particleSize := scalarOfWords
    (readField .float buf (offsetOf PointCloudUniformsDecl "particleSize"))
  maxPoints := intOfWord (scalarOfWords
    (readField .int buf (offsetOf PointCloudUniformsDecl "maxPoints")))
  pointCloudCurrentIndex := intOfWord (scalarOfWords
    (readField .int buf (offsetOf PointCloudUniformsDecl "pointCloudCurrentIndex")))
  confidenceThreshold := intOfWord (scalarOfWords
    (readField .int buf (offsetOf PointCloudUniformsDecl "confidenceThreshold")))

/-- Modelled from the spec: writing a value to a buffer. Stores every field
at its offset in `struct ParticleUniforms`. -/
def ParticleUniforms.write (u : ParticleUniforms) (buf : List Nat) : List Nat :=
  let buf := writeField .simd_float3 buf (offsetOf ParticleUniformsDecl "position")
    u.position.words
  let buf := writeField .simd_float3 buf (offsetOf ParticleUniformsDecl "color") u.color.words
  writeField .float buf (offsetOf ParticleUniformsDecl "confidence") [u.confidence]

/-- Modelled from the spec: reading a value back from a buffer. Loads every
field from its offset in `struct ParticleUniforms`. -/
def ParticleUniforms.read (buf : List Nat) : ParticleUniforms where
  position := simd_float3.ofWords
    (readField .simd_float3 buf (offsetOf ParticleUniformsDecl "position"))
  color := simd_float3.ofWords
    (readField .simd_float3 buf (offsetOf ParticleUniformsDecl "color"))
  confidence := scalarOfWords
    (readField .float buf (offsetOf ParticleUniformsDecl "confidence"))

/-- A `PointCloudUniforms` value with the sample settings of the renderer:
identity transforms, a 256 x 192 depth image, and `maxPoints = 500000`,
`pointCloudCurrentIndex = 0`, `confidenceThreshold = 2`. -/
def samplePointCloudUniforms : PointCloudUniforms where
  viewProjectionMatrix :=
    ⟨⟨1065353216, 0, 0, 0⟩, ⟨0, 1065353216, 0, 0⟩, ⟨0, 0, 1065353216, 0⟩,
      ⟨0, 0, 0, 1065353216⟩⟩
  localToWorld :=
    ⟨⟨1065353216, 0, 0, 0⟩, ⟨0, 1065353216, 0, 0⟩, ⟨0, 0, 1065353216, 0⟩,
      ⟨0, 0, 0, 1065353216⟩⟩
  cameraIntrinsicsInversed := ⟨⟨1065353216, 0, 0⟩, ⟨0, 1065353216, 0⟩, ⟨0, 0, 1065353216⟩⟩
  cameraResolution := ⟨1132462080, 1128267776⟩
  particleSize := 1084227584
  maxPoints := 500000
  pointCloudCurrentIndex := 0
  confidenceThreshold := 2

/-- An `RGBUniforms` value: identity matrix, ratio 0.75, fully visible. -/
def sampleRGBUniforms : RGBUniforms where
  viewToCamera := ⟨⟨1065353216, 0, 0⟩, ⟨0, 1065353216, 0⟩, ⟨0, 0, 1065353216⟩⟩
  viewRatio := 1061158912
  visibility := 1065353216

/-- A `ParticleUniforms` value: the point (1, 2, -1), white, confidence 2. -/
def sampleParticleUniforms : ParticleUniforms where
  position := ⟨1065353216, 1073741824, 3212836864⟩
  color := ⟨1065353216, 1065353216, 1065353216⟩
  confidence := 1073741824

/-- The assignment `u.pointCloudCurrentIndex = i`. -/
def PointCloudUniforms.setCursor (u : PointCloudUniforms) (i : Int) : PointCloudUniforms where
  viewProjectionMatrix := u.viewProjectionMatrix
  localToWorld := u.localToWorld
  cameraIntrinsicsInversed := u.cameraIntrinsicsInversed
  cameraResolution := u.cameraResolution
  particleSize := u.particleSize
  maxPoints := u.maxPoints
  pointCloudCurrentIndex := i
  confidenceThreshold := u.confidenceThreshold

/-- The assignment `u.maxPoints = n`. -/
def PointCloudUniforms.setMaxPoints (u : PointCloudUniforms) (n : Int) : PointCloudUniforms where
  viewProjectionMatrix := u.viewProjectionMatrix
  localToWorld := u.localToWorld
  cameraIntrinsicsInversed := u.cameraIntrinsicsInversed
  cameraResolution := u.cameraResolution
  particleSize := u.particleSize
  maxPoints := n
  pointCloudCurrentIndex := u.pointCloudCurrentIndex
  confidenceThreshold := u.confidenceThreshold

/-- The sample value with a point buffer of capacity 0. -/
def emptyPointCloudUniforms : PointCloudUniforms :=
  samplePointCloudUniforms.setMaxPoints 0

/-- The invariant the data model states for the write cursor of the ring
buffer: `0 ≤ pointCloudCurrentIndex < maxPoints`. -/
abbrev PointCloudUniforms.cursorInRange (u : PointCloudUniforms) : Prop :=
  0 ≤ u.pointCloudCurrentIndex ∧ u.pointCloudCurrentIndex < u.maxPoints

/-- The number `m` is the smallest multiple of `a` that is not less than
`lo`. -/
def SmallestMultipleGE (a lo m : Nat) : Prop :=
  a ∣ m ∧ lo ≤ m ∧ ∀ k, a ∣ k → lo ≤ k → m ≤ k

/-! Bytes and words in a buffer. -/

theorem length_writeBytes (buf : List Nat) (off : Nat) (bs : List Nat) :
    (writeBytes buf off bs).length = buf.length := by
  induction bs generalizing buf off with
  | nil => rfl
  | cons b bs ih => simp [writeBytes, ih]

theorem getD_writeBytes_outside (buf : List Nat) (off : Nat) (bs : List Nat) (i : Nat)
    (h : i < off ∨ off + bs.length ≤ i) :
    (writeBytes buf off bs).getD i 0 = buf.getD i 0 := by
  induction bs generalizing buf off with
  | nil => rfl
  | cons b bs ih =>
    have hne : off ≠ i := by
      simp only [List.length_cons] at h
      omega
    have hstep : i < off + 1 ∨ off + 1 + bs.length ≤ i := by
      simp only [List.length_cons] at h
      omega
    simp only [writeBytes]
    rw [ih _ _ hstep]
    simp [List.getElem?_set_ne hne]

theorem getD_writeBytes_inside (buf : List Nat) (off : Nat) (bs : List Nat) (k : Nat)
    (hk : k < bs.length) (hb : off + bs.length ≤ buf.length) :
    (writeBytes buf off bs).getD (off + k) 0 = bs.getD k 0 := by
  induction bs generalizing buf off k with
  | nil => simp at hk
  | cons b bs ih =>
    simp only [List.length_cons] at hk hb
    simp only [writeBytes]
    cases k with
    | zero =>
      rw [getD_writeBytes_outside _ _ _ _ (Or.inl (by omega))]
      have hlt : off < buf.length := by omega
      simp [List.getElem?_set_self hlt]
    | succ k =>
      have hidx : off + (k + 1) = off + 1 + k := by omega
      rw [hidx, ih (buf.set off b) (off + 1) k (by omega) (by simp; omega)]
      simp

theorem length_writeWord (buf : List Nat) (off w : Nat) :
    (writeWord buf off w).length = buf.length :=
  length_writeBytes _ _ _

theorem readWord_writeBytes_frame (buf : List Nat) (off : Nat) (bs : List Nat) (p : Nat)
    (h : p + 4 ≤ off ∨ off + bs.length ≤ p) :
    readWord (writeBytes buf off bs) p = readWord buf p := by
  unfold readWord
  rw [getD_writeBytes_outside _ _ _ p (by omega),
    getD_writeBytes_outside _ _ _ (p + 1) (by omega),
    getD_writeBytes_outside _ _ _ (p + 2) (by omega),
    getD_writeBytes_outside _ _ _ (p + 3) (by omega)]

theorem readWord_writeWord_frame (buf : List Nat) (off w p : Nat)
    (h : p + 4 ≤ off ∨ off + 4 ≤ p) :
    readWord (writeWord buf off w) p = readWord buf p :=
  readWord_writeBytes_frame _ _ _ _ (by simpa using h)

theorem readWord_writeWord_same (buf : List Nat) (off w : Nat)
    (hb : off + 4 ≤ buf.length) (hw : IsWord w) :
    readWord (writeWord buf off w) off = w := by
  have h0 := getD_writeBytes_inside buf off
    [w % 256, w / 256 % 256, w / 65536 % 256, w / 16777216 % 256] 0 (by simp) (by simpa using hb)
  have h1 := getD_writeBytes_inside buf off
    [w % 256, w / 256 % 256, w / 65536 % 256, w / 16777216 % 256] 1 (by simp) (by simpa using hb)
  have h2 := getD_writeBytes_inside buf off
    [w % 256, w / 256 % 256, w / 65536 % 256, w / 16777216 % 256] 2 (by simp) (by simpa using hb)
  have h3 := getD_writeBytes_inside buf off
    [w % 256, w / 256 % 256, w / 65536 % 256, w / 16777216 % 256] 3 (by simp) (by simpa using hb)
  unfold readWord writeWord
  simp only [Nat.add_zero] at h0 ⊢
  rw [h0, h1, h2, h3]
  simp only [List.getD_cons_zero, List.getD_cons_succ]
  unfold IsWord at hw
  omega

theorem intOfWord_wordOfInt (i : Int) (h : IsInt32 i) : intOfWord (wordOfInt i) = i := by
  unfold intOfWord wordOfInt
  unfold IsInt32 at h
  split <;> omega

theorem isWord_wordOfInt (i : Int) : IsWord (wordOfInt i) := by
  unfold wordOfInt IsWord
  omega

/-! Fields in a buffer. -/

theorem length_writeWordsAt (off : Nat) (buf cs ws : List Nat) :
    (writeWordsAt off buf cs ws).length = buf.length := by
  induction cs generalizing buf ws with
  | nil => simp [writeWordsAt]
  | cons c cs ih =>
    cases ws with
    | nil => simp [writeWordsAt]
    | cons w ws => simp [writeWordsAt, ih, length_writeWord]

theorem readWord_writeWordsAt_frame (off : Nat) (buf cs ws : List Nat) (p : Nat)
    (h : ∀ c ∈ cs, p + 4 ≤ off + c ∨ off + c + 4 ≤ p) :
    readWord (writeWordsAt off buf cs ws) p = readWord buf p := by
  induction cs generalizing buf ws with
  | nil => simp [writeWordsAt]
  | cons c cs ih =>
    cases ws with
    | nil => simp [writeWordsAt]
    | cons w ws =>
      simp only [writeWordsAt]
      rw [ih _ _ (fun c' hc' => h c' (List.mem_cons_of_mem _ hc'))]
      exact readWord_writeWord_frame _ _ _ _ (h c (List.mem_cons_self _ _))

theorem readWords_writeWordsAt (off : Nat) (buf cs ws : List Nat)
    (hpw : cs.Pairwise fun a b => a + 4 ≤ b ∨ b + 4 ≤ a)
    (hb : ∀ c ∈ cs, off + c + 4 ≤ buf.length)
    (hl : ws.length = cs.length) (hw : ∀ w ∈ ws, IsWord w) :
    (cs.map fun c => readWord (writeWordsAt off buf cs ws) (off + c)) = ws := by
  induction cs generalizing buf ws with
  | nil =>
    cases ws with
    | nil => rfl
    | cons w ws => simp at hl
  | cons c cs ih =>
    cases ws with
    | nil => simp at hl
    | cons w ws =>
      rw [List.pairwise_cons] at hpw
      simp only [writeWordsAt, List.map_cons]
      congr 1
      · rw [readWord_writeWordsAt_frame]
        · exact readWord_writeWord_same _ _ _ (by
            have := hb c (List.mem_cons_self _ _)
            omega) (hw w (List.mem_cons_self _ _))
        · intro c' hc'
          have := hpw.1 c' hc'
          omega
      · refine ih _ _ hpw.2 ?_ (by simpa using hl)
          (fun w' hw' => hw w' (List.mem_cons_of_mem _ hw'))
        intro c' hc'
        rw [length_writeWord]
        exact hb c' (List.mem_cons_of_mem _ hc')

theorem compOffsets_pairwise (ty : FieldType) :
    ty.compOffsets.Pairwise fun a b => a + 4 ≤ b ∨ b + 4 ≤ a := by
  cases ty <;> decide

theorem compOffsets_bound (ty : FieldType) : ∀ c ∈ ty.compOffsets, c + 4 ≤ ty.size := by
  cases ty <;> decide

theorem length_writeField (ty : FieldType) (buf : List Nat) (off : Nat) (ws : List Nat) :
    (writeField ty buf off ws).length = buf.length :=
  length_writeWordsAt _ _ _ _

theorem readField_writeField_same (ty : FieldType) (buf : List Nat) (off : Nat)
    (ws : List Nat) (hb : off + ty.size ≤ buf.length) (hw : ty.Holds ws) :
    readField ty (writeField ty buf off ws) off = ws := by
  unfold readField writeField
  refine readWords_writeWordsAt off buf _ ws (compOffsets_pairwise ty) ?_ hw.1 hw.2
  intro c hc
  have := compOffsets_bound ty c hc
  omega

theorem readField_writeBytes_frame (ty : FieldType) (buf : List Nat) (off : Nat)
    (bs : List Nat) (p : Nat) (h : p + ty.size ≤ off ∨ off + bs.length ≤ p) :
    readField ty (writeBytes buf off bs) p = readField ty buf p := by
  unfold readField
  refine List.map_congr_left ?_
  intro c hc
  have := compOffsets_bound ty c hc
  exact readWord_writeBytes_frame _ _ _ _ (by omega)

theorem readField_writeField_frame (ty ty2 : FieldType) (buf : List Nat) (off : Nat)
    (ws : List Nat) (p : Nat) (h : p + ty.size ≤ off ∨ off + ty2.size ≤ p) :
    readField ty (writeField ty2 buf off ws) p = readField ty buf p := by
  unfold readField writeField
  refine List.map_congr_left ?_
  intro c hc
  have hc4 := compOffsets_bound ty c hc
  refine readWord_writeWordsAt_frame _ _ _ _ _ ?_
  intro c2 hc2
  have := compOffsets_bound ty2 c2 hc2
  omega

/-! Values and their words. -/

theorem holds_float (x : Nat) (h : IsWord x) : FieldType.float.Holds [x] :=
  ⟨rfl, fun _ hw => (List.mem_singleton.mp hw) ▸ h⟩

theorem holds_int (i : Int) : FieldType.int.Holds [wordOfInt i] :=
  ⟨rfl, fun _ hw => (List.mem_singleton.mp hw) ▸ isWord_wordOfInt i⟩

theorem simd_float2_holds_words (v : simd_float2) (h : v.valid) :
    FieldType.simd_float2.Holds v.words := by
  refine ⟨rfl, ?_⟩
  simp only [simd_float2.words, List.mem_cons, List.mem_singleton, List.not_mem_nil, or_false]
  rintro w (rfl | rfl)
  exacts [h.1, h.2]

theorem simd_float3_isWord_words (v : simd_float3) (h : v.valid) : ∀ w ∈ v.words, IsWord w := by
  simp only [simd_float3.words, List.mem_cons, List.mem_singleton, List.not_mem_nil, or_false]
  rintro w (rfl | rfl | rfl)
  exacts [h.1, h.2.1, h.2.2]

theorem simd_float3_holds_words (v : simd_float3) (h : v.valid) :
    FieldType.simd_float3.Holds v.words :=
  ⟨rfl, simd_float3_isWord_words v h⟩

theorem simd_float4_isWord_words (v : simd_float4) (h : v.valid) : ∀ w ∈ v.words, IsWord w := by
  simp only [simd_float4.words, List.mem_cons, List.mem_singleton, List.not_mem_nil, or_false]
  rintro w (rfl | rfl | rfl | rfl)
  exacts [h.1, h.2.1, h.2.2.1, h.2.2.2]

theorem matrix_float3x3_holds_words (m : matrix_float3x3) (h : m.valid) :
    FieldType.matrix_float3x3.Holds m.words := by
  refine ⟨rfl, ?_⟩
  intro w hw
  simp only [matrix_float3x3.words, List.mem_append] at hw
  rcases hw with (hw | hw) | hw
  exacts [simd_float3_isWord_words _ h.1 w hw, simd_float3_isWord_words _ h.2.1 w hw,
    simd_float3_isWord_words _ h.2.2 w hw]

theorem matrix_float4x4_holds_words (m : matrix_float4x4) (h : m.valid) :
    FieldType.matrix_float4x4.Holds m.words := by
  refine ⟨rfl, ?_⟩
  intro w hw
  simp only [matrix_float4x4.words, List.mem_append] at hw
  rcases hw with ((hw | hw) | hw) | hw
  exacts [simd_float4_isWord_words _ h.1 w hw, simd_float4_isWord_words _ h.2.1 w hw,
    simd_float4_isWord_words _ h.2.2.1 w hw, simd_float4_isWord_words _ h.2.2.2 w hw]

theorem rgbUniforms_read_write (u : RGBUniforms) (buf : List Nat) (hu : u.valid)
    (hb : buf.length = structSize RGBUniformsDecl) :
    RGBUniforms.read (u.write buf) = u := by
  have hlen : buf.length = 64 := hb
  have o1 : offsetOf RGBUniformsDecl "viewToCamera" = 0 := by decide
  have o2 : offsetOf RGBUniformsDecl "viewRatio" = 48 := by decide
  have o3 : offsetOf RGBUniformsDecl "visibility" = 52 := by decide
  obtain ⟨h1, h2, h3⟩ := hu
  have w1 := matrix_float3x3_holds_words _ h1
  have w2 := holds_float _ h2
  have w3 := holds_float _ h3
  unfold RGBUniforms.read RGBUniforms.write
  simp only [o1, o2, o3]
  simp only [readField_writeField_frame, readField_writeField_same, length_writeField,
    FieldType.size, hlen, w1, w2, w3, Nat.reduceAdd, Nat.reduceLeDiff,
    or_true, true_or, le_refl, scalarOfWords]
  rfl

theorem pointCloudUniforms_read_write (u : PointCloudUniforms) (buf : List Nat) (hu : u.valid)
    (hb : buf.length = structSize PointCloudUniformsDecl) :
    PointCloudUniforms.read (u.write buf) = u := by
  have hlen : buf.length = 208 := hb
  have o1 : offsetOf PointCloudUniformsDecl "viewProjectionMatrix" = 0 := by decide
  have o2 : offsetOf PointCloudUniformsDecl "localToWorld" = 64 := by decide
  have o3 : offsetOf PointCloudUniformsDecl "cameraIntrinsicsInversed" = 128 := by decide
  have o4 : offsetOf PointCloudUniformsDecl "cameraResolution" = 176 := by decide
  have o5 : offsetOf PointCloudUniformsDecl "particleSize" = 184 := by decide
  have o6 : offsetOf PointCloudUniformsDecl "maxPoints" = 188 := by decide
  have o7 : offsetOf PointCloudUniformsDecl "pointCloudCurrentIndex" = 192 := by decide
  have o8 : offsetOf PointCloudUniformsDecl "confidenceThreshold" = 196 := by decide
  obtain ⟨h1, h2, h3, h4, h5, h6, h7, h8⟩ := hu
  have w1 := matrix_float4x4_holds_words _ h1
  have w2 := matrix_float4x4_holds_words _ h2
  have w3 := matrix_float3x3_holds_words _ h3
  have w4 := simd_float2_holds_words _ h4
  have w5 := holds_float _ h5
  have w6 := holds_int u.maxPoints
  have w7 := holds_int u.pointCloudCurrentIndex
  have w8 := holds_int u.confidenceThreshold
  unfold PointCloudUniforms.read PointCloudUniforms.write
  simp only [o1, o2, o3, o4, o5, o6, o7, o8]
  simp only [readField_writeField_frame, readField_writeField_same, length_writeField,
    FieldType.size, hlen, w1, w2, w3, w4, w5, w6, w7, w8, Nat.reduceAdd, Nat.reduceLeDiff,
    or_true, true_or, le_refl, scalarOfWords, intOfWord_wordOfInt _ h6,
    intOfWord_wordOfInt _ h7, intOfWord_wordOfInt _ h8]
  rfl

theorem particleUniforms_read_write (u : ParticleUniforms) (buf : List Nat) (hu : u.valid)
    (hb : buf.length = structSize ParticleUniformsDecl) :
    ParticleUniforms.read (u.write buf) = u := by
  have hlen : buf.length = 48 := hb
  have o1 : offsetOf ParticleUniformsDecl "position" = 0 := by decide
  have o2 : offsetOf ParticleUniformsDecl "color" = 16 := by decide
  have o3 : offsetOf ParticleUniformsDecl "confidence" = 32 := by decide
  obtain ⟨h1, h2, h3⟩ := hu
  have w1 := simd_float3_holds_words _ h1
  have w2 := simd_float3_holds_words _ h2
  have w3 := holds_float _ h3
  unfold ParticleUniforms.read ParticleUniforms.write
  simp only [o1, o2, o3]
  simp only [readField_writeField_frame, readField_writeField_same, length_writeField,
    FieldType.size, hlen, w1, w2, w3, Nat.reduceAdd, Nat.reduceLeDiff,
    or_true, true_or, le_refl, scalarOfWords]
  rfl

/-! Layout arithmetic. -/

theorem alignUp_smallest (x a : Nat) (ha : 0 < a) : SmallestMultipleGE a x (alignUp x a) := by
  unfold SmallestMultipleGE alignUp
  refine ⟨Dvd.intro_left _ rfl, ?_, ?_⟩
  · have h1 := Nat.div_add_mod (x + a - 1) a
    have h2 := Nat.mod_lt (x + a - 1) ha
    have h3 : (x + a - 1) / a * a = a * ((x + a - 1) / a) := Nat.mul_comm _ _
    omega
  · rintro k ⟨j, rfl⟩ hk
    have hq : (x + a - 1) / a ≤ j := by
      have hlt : (x + a - 1) / a < j + 1 := by
        rw [Nat.div_lt_iff_lt_mul ha]
        have : (j + 1) * a = a * j + a := by ring
        omega
      omega
    calc (x + a - 1) / a * a ≤ j * a := Nat.mul_le_mul_right a hq
      _ = a * j := Nat.mul_comm _ _

theorem align_pos (ty : FieldType) : 0 < ty.align := by
  cases ty <;> decide

theorem chain_layoutFrom (pos : Nat) (fs : List Field) :
    (layoutFrom pos fs).Chain' fun s t => SmallestMultipleGE t.ty.align s.stop t.offset := by
  induction fs generalizing pos with
  | nil => exact List.chain'_nil
  | cons f fs ih =>
    cases fs with
    | nil => exact List.chain'_singleton _
    | cons g gs =>
      have hrest := ih (alignUp pos f.ty.align + f.ty.size)
      simp only [layoutFrom] at hrest ⊢
      exact List.Chain'.cons (alignUp_smallest _ _ (align_pos g.ty)) hrest

/-! The claims. -/

/-- C1: `TextureIndices` has exactly four constants, with the values
kTextureY = 0, kTextureCbCr = 1, kTextureDepth = 2, kTextureConfidence = 3. -/
theorem textureIndices_values :
    Fintype.card TextureIndices = 4 ∧
    TextureIndices.kTextureY.value = 0 ∧
    TextureIndices.kTextureCbCr.value = 1 ∧
    TextureIndices.kTextureDepth.value = 2 ∧
    TextureIndices.kTextureConfidence.value = 3 :=
  ⟨rfl, rfl, rfl, rfl, rfl⟩

/-- C2: `BufferIndices` has exactly three constants, with the values
kPointCloudUniforms = 0, kParticleUniforms = 1, kGridPoints = 2. -/
theorem bufferIndices_values :
    Fintype.card BufferIndices = 3 ∧
    BufferIndices.kPointCloudUniforms.value = 0 ∧
    BufferIndices.kParticleUniforms.value = 1 ∧
    BufferIndices.kGridPoints.value = 2 :=
  ⟨rfl, rfl, rfl, rfl⟩

/-- C3: for each of the three structs the declared sequence of fields (name,
scalar kind, dimensionality) is the sequence the data model of the
specification lists: nothing missing, extra or reordered. -/
theorem struct_fields_match_data_model :
    RGBUniformsDecl.fields.map Field.describe = specRGBUniforms ∧
    PointCloudUniformsDecl.fields.map Field.describe = specPointCloudUniforms ∧
    ParticleUniformsDecl.fields.map Field.describe = specParticleUniforms := by
  decide

/-- C4: a valid value of each of the three structs, written at the struct's
field offsets into a buffer of `sizeof(struct)` bytes and read back from the
same offsets, is the original value. -/
theorem layout_round_trip (r : RGBUniforms) (p : PointCloudUniforms) (q : ParticleUniforms)
    (br bp bq : List Nat) (hr : r.valid) (hp : p.valid) (hq : q.valid)
    (hbr : br.length = structSize RGBUniformsDecl)
    (hbp : bp.length = structSize PointCloudUniformsDecl)
    (hbq : bq.length = structSize ParticleUniformsDecl) :
    RGBUniforms.read (r.write br) = r ∧
    PointCloudUniforms.read (p.write bp) = p ∧
    ParticleUniforms.read (q.write bq) = q :=
  ⟨rgbUniforms_read_write r br hr hbr, pointCloudUniforms_read_write p bp hp hbp,
    particleUniforms_read_write q bq hq hbq⟩

/-- C4, at the sample values: the hypotheses hold there, the three sample
structs read back unchanged, and the `PointCloudUniforms` with
`maxPoints = 500000`, `pointCloudCurrentIndex = 0`, `confidenceThreshold = 2`
reads back with exactly those three values. -/
theorem layout_round_trip_witness :
    samplePointCloudUniforms.valid ∧
    (List.replicate 208 0).length = structSize PointCloudUniformsDecl ∧
    RGBUniforms.read (sampleRGBUniforms.write (List.replicate 64 0)) = sampleRGBUniforms ∧
    PointCloudUniforms.read (samplePointCloudUniforms.write (List.replicate 208 0)) =
      samplePointCloudUniforms ∧
    ParticleUniforms.read (sampleParticleUniforms.write (List.replicate 48 0)) =
      sampleParticleUniforms ∧
    (PointCloudUniforms.read
      (samplePointCloudUniforms.write (List.replicate 208 0))).maxPoints = 500000 ∧
    (PointCloudUniforms.read
      (samplePointCloudUniforms.write (List.replicate 208 0))).pointCloudCurrentIndex = 0 ∧
    (PointCloudUniforms.read
      (samplePointCloudUniforms.write (List.replicate 208 0))).confidenceThreshold = 2 := by
  have h := layout_round_trip sampleRGBUniforms samplePointCloudUniforms sampleParticleUniforms
    (List.replicate 64 0) (List.replicate 208 0) (List.replicate 48 0)
    (by decide) (by decide) (by decide)
    ((List.length_replicate 64 0).trans (by decide))
    ((List.length_replicate 208 0).trans (by decide))
    ((List.length_replicate 48 0).trans (by decide))
  refine ⟨by decide, (List.length_replicate 208 0).trans (by decide), h.1, h.2.1, h.2.2,
    ?_, ?_, ?_⟩ <;> rw [h.2.1] <;> rfl

/-- C5: in each of the three structs the first field is at offset 0, every
later field is at the smallest multiple of its alignment that is not less than
the end of the field before it, the struct's alignment is its largest field
alignment, and `sizeof` is the smallest multiple of that alignment not less
than the end of the last field; the sizes are 64, 208 and 48. -/
theorem natural_layout (d : StructDecl) (hd : d ∈ structDecls) :
    (layout d).map (fun s => (s.name, s.ty)) = d.fields.map (fun f => (f.name, f.ty)) ∧
    (layout d).head?.map Slot.offset = some 0 ∧
    (layout d).Chain' (fun s t => SmallestMultipleGE t.ty.align s.stop t.offset) ∧
    (∀ f ∈ d.fields, f.ty.align ≤ structAlign d) ∧
    (∃ f ∈ d.fields, f.ty.align = structAlign d) ∧
    (∃ last, (layout d).getLast? = some last ∧
      SmallestMultipleGE (structAlign d) last.stop (structSize d)) ∧
    structSize RGBUniformsDecl = 64 ∧
    structSize PointCloudUniformsDecl = 208 ∧
    structSize ParticleUniformsDecl = 48 := by
  have hdec : ∀ e ∈ structDecls,
      (layout e).map (fun s => (s.name, s.ty)) = e.fields.map (fun f => (f.name, f.ty)) ∧
      (layout e).head?.map Slot.offset = some 0 ∧
      (∀ f ∈ e.fields, f.ty.align ≤ structAlign e) ∧
      (∃ f ∈ e.fields, f.ty.align = structAlign e) ∧
      0 < structAlign e ∧
      (∃ last ∈ layout e, (layout e).getLast? = some last ∧ dataEnd e = last.stop) := by
    decide
  obtain ⟨h1, h2, h3, h4, h5, last, -, h6, h7⟩ := hdec d hd
  refine ⟨h1, h2, chain_layoutFrom 0 d.fields, h3, h4, ⟨last, h6, ?_⟩, by decide, by decide,
    by decide⟩
  rw [← h7]
  exact alignUp_smallest _ _ h5

/-- C5, at `struct PointCloudUniforms`. -/
theorem natural_layout_witness :
    PointCloudUniformsDecl ∈ structDecls ∧
    (layout PointCloudUniformsDecl).Chain'
      (fun s t => SmallestMultipleGE t.ty.align s.stop t.offset) ∧
    structSize PointCloudUniformsDecl = 208 :=
  ⟨by decide, (natural_layout PointCloudUniformsDecl (by decide)).2.2.1,
    (natural_layout PointCloudUniformsDecl (by decide)).2.2.2.2.2.2.2.1⟩

/-- C6 as stated fails: `cameraResolution` does not occupy bytes 16..31 of the
point-cloud uniform buffer. -/
theorem cameraResolution_not_at_bytes_16_31 :
    ¬ (byteRange PointCloudUniformsDecl "cameraResolution" = some (16, 31) ∧
      TextureIndices.kTextureDepth.value = 2) := by
  decide

/-- C6, amended: `cameraResolution` occupies bytes 176..183 of the point-cloud
uniform buffer (bytes 16..31 lie inside `viewProjectionMatrix`, which occupies
bytes 0..63), and the texture unit 2 is the depth texture and no other. -/
theorem cameraResolution_at_bytes_176_183 :
    byteRange PointCloudUniformsDecl "cameraResolution" = some (176, 183) ∧
    byteRange PointCloudUniformsDecl "viewProjectionMatrix" = some (0, 63) ∧
    TextureIndices.kTextureDepth.value = 2 ∧
    ∀ t : TextureIndices, t.value = 2 ↔ t = TextureIndices.kTextureDepth := by
  decide

/-- C7 as stated fails: with `maxPoints = 0`, which satisfies `maxPoints ≥ 0`,
neither the cursor 0 nor the cursor `maxPoints - 1` is in `[0, maxPoints)`. -/
theorem zero_capacity_cursor_out_of_range :
    emptyPointCloudUniforms.valid ∧ 0 ≤ emptyPointCloudUniforms.maxPoints ∧
    ¬ (emptyPointCloudUniforms.setCursor 0).cursorInRange ∧
    ¬ (emptyPointCloudUniforms.setCursor
      (emptyPointCloudUniforms.maxPoints - 1)).cursorInRange := by
  decide

/-- C7, amended: for every `PointCloudUniforms` value with `maxPoints ≥ 1`, the
cursors 0 and `maxPoints - 1` are values of `int` inside `[0, maxPoints)`; and
the struct checks nothing: the cursors -1 and `maxPoints` are values of `int`
too, outside `[0, maxPoints)`. -/
theorem cursor_boundary (u : PointCloudUniforms) (hu : u.valid) (hm : 1 ≤ u.maxPoints) :
    ((u.setCursor 0).valid ∧ (u.setCursor 0).cursorInRange) ∧
    ((u.setCursor (u.maxPoints - 1)).valid ∧
      (u.setCursor (u.maxPoints - 1)).cursorInRange) ∧
    ((u.setCursor (-1)).valid ∧ ¬ (u.setCursor (-1)).cursorInRange) ∧
    ((u.setCursor u.maxPoints).valid ∧ ¬ (u.setCursor u.maxPoints).cursorInRange) := by
  obtain ⟨h1, h2, h3, h4, h5, ⟨h6a, h6b⟩, -, h8⟩ := hu
  have hset : ∀ i : Int, IsInt32 i → (u.setCursor i).valid :=
    fun i hi => ⟨h1, h2, h3, h4, h5, ⟨h6a, h6b⟩, hi, h8⟩
  have hin : ∀ i : Int, (u.setCursor i).cursorInRange ↔ 0 ≤ i ∧ i < u.maxPoints :=
    fun _ => Iff.rfl
  clear h1 h2 h3 h4 h5 h8
  refine ⟨⟨hset _ ⟨?_, ?_⟩, (hin _).2 ⟨?_, ?_⟩⟩, ⟨hset _ ⟨?_, ?_⟩, (hin _).2 ⟨?_, ?_⟩⟩,
    ⟨hset _ ⟨?_, ?_⟩, ?_⟩, ⟨hset _ ⟨?_, ?_⟩, ?_⟩⟩
  all_goals first
    | omega
    | (rw [hin]; omega)

/-- C7 amended, at the sample value (`maxPoints = 500000`). -/
theorem cursor_boundary_witness :
    samplePointCloudUniforms.valid ∧ 1 ≤ samplePointCloudUniforms.maxPoints ∧
    (samplePointCloudUniforms.setCursor 499999).cursorInRange ∧
    ¬ (samplePointCloudUniforms.setCursor 500000).cursorInRange :=
  ⟨by decide, by decide,
    (cursor_boundary samplePointCloudUniforms (by decide) (by decide)).2.1.2,
    (cursor_boundary samplePointCloudUniforms (by decide) (by decide)).2.2.2.2⟩

/-- C8: each enumeration maps its constants one-to-one onto an initial segment
of the naturals: texture slots onto {0,1,2,3}, buffer slots onto {0,1,2}. -/
theorem slot_assignment_bijective :
    Function.Injective TextureIndices.value ∧
    Set.range TextureIndices.value = {0, 1, 2, 3} ∧
    Function.Injective BufferIndices.value ∧
    Set.range BufferIndices.value = {0, 1, 2} := by
  refine ⟨by decide, ?_, by decide, ?_⟩
  · ext n
    simp only [Set.mem_range, Set.mem_insert_iff, Set.mem_singleton_iff]
    constructor
    · rintro ⟨t, rfl⟩
      cases t <;> simp [TextureIndices.value]
    · rintro (rfl | rfl | rfl | rfl)
      exacts [⟨.kTextureY, rfl⟩, ⟨.kTextureCbCr, rfl⟩, ⟨.kTextureDepth, rfl⟩,
        ⟨.kTextureConfidence, rfl⟩]
  · ext n
    simp only [Set.mem_range, Set.mem_insert_iff, Set.mem_singleton_iff]
    constructor
    · rintro ⟨t, rfl⟩
      cases t <;> simp [BufferIndices.value]
    · rintro (rfl | rfl | rfl)
      exacts [⟨.kPointCloudUniforms, rfl⟩, ⟨.kParticleUniforms, rfl⟩, ⟨.kGridPoints, rfl⟩]

/-- C9: in each of the three structs, two distinct fields occupy disjoint byte
ranges, every field lies inside `[0, sizeof(struct))` at an offset that is a
multiple of its alignment, and overwriting all bytes of one field leaves what
is read back for any other field unchanged. -/
theorem fields_disjoint_and_framed (d : StructDecl) (hd : d ∈ structDecls) (s t : Slot)
    (hs : s ∈ layout d) (ht : t ∈ layout d) (hst : s ≠ t)
    (buf bs : List Nat) (hbs : bs.length = s.ty.size) :
    (s.stop ≤ t.offset ∨ t.stop ≤ s.offset) ∧
    s.stop ≤ structSize d ∧
    s.ty.align ∣ s.offset ∧
    readField t.ty (writeBytes buf s.offset bs) t.offset = readField t.ty buf t.offset := by
  have hdec : ∀ e ∈ structDecls, ∀ a ∈ layout e, ∀ b ∈ layout e, a ≠ b →
      (a.stop ≤ b.offset ∨ b.stop ≤ a.offset) ∧ a.stop ≤ structSize e ∧
        a.ty.align ∣ a.offset := by
    decide
  obtain ⟨h1, h2, h3⟩ := hdec d hd s hs t ht hst
  refine ⟨h1, h2, h3, readField_writeBytes_frame _ _ _ _ _ ?_⟩
  unfold Slot.stop at h1
  omega

/-- C9, at `maxPoints` and `pointCloudCurrentIndex` of `PointCloudUniforms`:
overwriting the four bytes of `maxPoints` leaves the cursor read back
unchanged. -/
theorem fields_disjoint_and_framed_witness :
    PointCloudUniformsDecl ∈ structDecls ∧
    (⟨"maxPoints", .int, 188⟩ : Slot) ∈ layout PointCloudUniformsDecl ∧
    (⟨"pointCloudCurrentIndex", .int, 192⟩ : Slot) ∈ layout PointCloudUniformsDecl ∧
    readField .int (writeBytes (samplePointCloudUniforms.write (List.replicate 208 0)) 188
      [255, 255, 255, 255]) 192 =
      readField .int (samplePointCloudUniforms.write (List.replicate 208 0)) 192 :=
  ⟨by decide, by decide, by decide,
    (fields_disjoint_and_framed PointCloudUniformsDecl (by decide)
      ⟨"maxPoints", .int, 188⟩ ⟨"pointCloudCurrentIndex", .int, 192⟩
      (by decide) (by decide) (by decide)
      (samplePointCloudUniforms.write (List.replicate 208 0)) [255, 255, 255, 255]
      (by decide)).2.2.2⟩

/-- C10: `sizeof(ParticleUniforms) = 48` is a multiple of the struct's 16-byte
alignment; in an array of `maxPoints` elements, every element `i < maxPoints`
(also the only element of a one-element buffer) starts at byte `48 * i` and
lies inside the `maxPoints * 48` bytes of the buffer; its `position`, `color`
and `confidence` start at bytes `48 * i`, `48 * i + 16` and `48 * i + 32`,
inside the element, which are multiples of the fields' alignments 16, 16 and
4; and the element shares no byte with any other element `j < maxPoints`. -/
theorem particle_array_tiling (maxPoints i : Nat) (hi : i < maxPoints) :
    structSize ParticleUniformsDecl = 48 ∧
    structAlign ParticleUniformsDecl = 16 ∧
    structAlign ParticleUniformsDecl ∣ structSize ParticleUniformsDecl ∧
    elemOffset ParticleUniformsDecl i = 48 * i ∧
    elemOffset ParticleUniformsDecl i + structSize ParticleUniformsDecl ≤ maxPoints * 48 ∧
    (slotOf ParticleUniformsDecl "position").map (fun s => (s.ty.align, s.ty.size)) =
      some (16, 16) ∧
    (slotOf ParticleUniformsDecl "color").map (fun s => (s.ty.align, s.ty.size)) =
      some (16, 16) ∧
    (slotOf ParticleUniformsDecl "confidence").map (fun s => (s.ty.align, s.ty.size)) =
      some (4, 4) ∧
    elemFieldOffset ParticleUniformsDecl i "position" = 48 * i ∧
    elemFieldOffset ParticleUniformsDecl i "color" = 48 * i + 16 ∧
    elemFieldOffset ParticleUniformsDecl i "confidence" = 48 * i + 32 ∧
    16 ∣ elemFieldOffset ParticleUniformsDecl i "position" ∧
    16 ∣ elemFieldOffset ParticleUniformsDecl i "color" ∧
    4 ∣ elemFieldOffset ParticleUniformsDecl i "confidence" ∧
    elemFieldOffset ParticleUniformsDecl i "position" + 16 ≤
      elemOffset ParticleUniformsDecl i + structSize ParticleUniformsDecl ∧
    elemFieldOffset ParticleUniformsDecl i "color" + 16 ≤
      elemOffset ParticleUniformsDecl i + structSize ParticleUniformsDecl ∧
    elemFieldOffset ParticleUniformsDecl i "confidence" + 4 ≤
      elemOffset ParticleUniformsDecl i + structSize ParticleUniformsDecl ∧
    ∀ j, j < maxPoints → i ≠ j →
      (elemOffset ParticleUniformsDecl i + structSize ParticleUniformsDecl ≤
          elemOffset ParticleUniformsDecl j ∨
        elemOffset ParticleUniformsDecl j + structSize ParticleUniformsDecl ≤
          elemOffset ParticleUniformsDecl i) := by
  have hsz : structSize ParticleUniformsDecl = 48 := by decide
  have hal : structAlign ParticleUniformsDecl = 16 := by decide
  have o1 : offsetOf ParticleUniformsDecl "position" = 0 := by decide
  have o2 : offsetOf ParticleUniformsDecl "color" = 16 := by decide
  have o3 : offsetOf ParticleUniformsDecl "confidence" = 32 := by decide
  simp only [elemFieldOffset, elemOffset, hsz, hal, o1, o2, o3]
  refine ⟨trivial, trivial, by decide, ?_, ?_, by decide, by decide, by decide,
    ?_, ?_, ?_, ?_, ?_, ?_, ?_, ?_, ?_, ?_⟩
  all_goals omega

/-- C10, at the only element of a one-element buffer and at the last element
of a buffer of 500000 particles against its neighbour. -/
theorem particle_array_tiling_witness :
    (0 : Nat) < 1 ∧
    elemOffset ParticleUniformsDecl 0 + structSize ParticleUniformsDecl ≤ 1 * 48 ∧
    16 ∣ elemFieldOffset ParticleUniformsDecl 0 "color" ∧
    (499999 : Nat) < 500000 ∧
    elemFieldOffset ParticleUniformsDecl 499999 "confidence" = 48 * 499999 + 32 ∧
    (elemOffset ParticleUniformsDecl 499999 + structSize ParticleUniformsDecl ≤
        elemOffset ParticleUniformsDecl 499998 ∨
      elemOffset ParticleUniformsDecl 499998 + structSize ParticleUniformsDecl ≤
        elemOffset ParticleUniformsDecl 499999) :=
  ⟨by decide,
    (particle_array_tiling 1 0 (by decide)).2.2.2.2.1,
    (particle_array_tiling 1 0 (by decide)).2.2.2.2.2.2.2.2.2.2.2.2.1,
    by decide,
    (particle_array_tiling 500000 499999 (by decide)).2.2.2.2.2.2.2.2.2.2.1,
    (particle_array_tiling 500000 499999 (by decide)).2.2.2.2.2.2.2.2.2.2.2.2.2.2.2.2.2
      499998 (by decide) (by decide)⟩

end ShaderTypes
